import Mathlib

/-!
Verification of the ExportTaxCalc workflow (ExportTaxCalc.py).

Shallow embedding conventions:
* Spreadsheet workbooks are modelled as total maps from sheet name and cell
  coordinate to an optional cell value (`none` is an empty cell).  Each
  update function of the source opens, writes, saves and closes one workbook;
  it is modelled as a pure state transformer on such a map.  A function
  that can raise before its save returns `Except String`, with the error case
  leaving the saved file untouched.
* Python numbers (JSON numbers, floats from user input, the literal 0.1)
  are idealised as exact rationals.
* Dates are modelled as proleptic-Gregorian day ordinals (integers).  For a
  registration date parsed at midnight and a current datetime, the Python
  expression (current_date - reg_date).days equals the difference of the two
  day ordinals, since the fractional time-of-day part is in [0, 1).
* JSON records are structures whose optional fields model absent-or-null
  JSON members, matching the dict.get access pattern of the source.
* HTTP responses are inputs of type Except String payload: the error case
  models a failed request or malformed body.
-/

namespace ExportTaxCalc

/-- A spreadsheet cell value: a number or a text. -/
inductive CellVal where
  | num (q : ℚ)
  | str (s : String)
deriving DecidableEq

/-- Workbook state: sheet name → cell coordinate → stored value. -/
def Cells : Type := String → String → Option CellVal

/-- Assigning a value to one cell of one sheet. -/
def writeCell (cells : Cells) (sheet cell : String) (v : CellVal) : Cells :=
  fun s c => if s = sheet ∧ c = cell then some v else cells s c

/-- Assigning a Python value that may be None: xlwings clears the cell on None. -/
def writeCellOpt (cells : Cells) (sheet cell : String) (v : Option CellVal) : Cells :=
  fun s c => if s = sheet ∧ c = cell then v else cells s c

/-- A workbook with every cell empty. -/
def emptyCells : Cells := fun _ _ => none

/-- Python's str.replace for a single-character pattern: replaces every
occurrence of the character a by b. -/
def replaceChar (s : String) (a b : Char) : String :=
  String.mk (s.data.map fun c => if c = a then b else c)

/-- The numeric value of a decimal digit character. -/
def digitVal (c : Char) : Option ℕ :=
  if c.isDigit then some (c.toNat - 48) else none

/-- Reads a digit string as a natural number; fails on any non-digit. -/
def decodeDigits (cs : List Char) : Option ℕ :=
  cs.foldlM (fun a c => (digitVal c).map fun d => a * 10 + d) 0

/-- Splits a character list on a separator character. -/
def splitOnChar (sep : Char) : List Char → List (List Char)
  | [] => [[]]
  | c :: cs =>
    let r := splitOnChar sep cs
    if c = sep then [] :: r
    else
      match r with
      | [] => [[c]]
      | h :: t => (c :: h) :: t

/-- Python's float() restricted to plain decimal literals: an optional sign,
an integer part and an optional fractional part after one dot, with at least
one digit overall.  Exponent forms and the special values are outside the
shapes this program feeds to float(), so they are not modelled.  Returns
none where float() raises ValueError. -/
def pyFloat (s : String) : Option ℚ :=
  let cs := s.data
  let signBody : Bool × List Char :=
    match cs with
    | '-' :: t => (true, t)
    | '+' :: t => (false, t)
    | _ => (false, cs)
  let neg := signBody.1
  match splitOnChar '.' signBody.2 with
  | [i] =>
    if i.isEmpty then none
    else (decodeDigits i).map fun n => if neg then -(n : ℚ) else (n : ℚ)
  | [i, f] =>
    if i.isEmpty && f.isEmpty then none
    else
      match decodeDigits i, decodeDigits f with
      | some ni, some nf =>
        let q : ℚ := (ni : ℚ) + (nf : ℚ) / (10 ^ f.length : ℚ)
        some (if neg then -q else q)
      | _, _ => none
  | _ => none

/-- calculate_vehicle_age (lines 69-76): age in years from the registration
date, as the day difference floor-divided by 365 (Python //). -/
def calculate_vehicle_age (registration_date now_ordinal : ℤ) : ℤ :=
  (now_ordinal - registration_date).fdiv 365

/-- find_trade_price_based_on_age (lines 80-104): selects the trade price
cell of row 19 of sheet Ark1 and the age-group label from the vehicle age. -/
def find_trade_price_based_on_age (cells : Cells) (vehicle_age : ℤ) :
    Option CellVal × String :=
  if vehicle_age < 1 then (cells "Ark1" "E19", "0-1 år")
  else if 1 ≤ vehicle_age ∧ vehicle_age < 2 then (cells "Ark1" "F19", "1-2 år")
  else if 2 ≤ vehicle_age ∧ vehicle_age < 3 then (cells "Ark1" "G19", "2-3 år")
  else if 3 ≤ vehicle_age ∧ vehicle_age < 10 then (cells "Ark1" "H19", "3-9 år")
  else (cells "Ark1" "I19", "Over 10 år")

/-- One record of the evaluations endpoint (the data list element used by
fetch_vehicle_data and fetch_new_price_from_api).  The date field carries the
registration date as a day ordinal; the three amounts are absent when the
JSON member is missing or null. -/
structure EvaluationRecord where
  date : ℤ
  retail_price : Option ℚ
  evaluation : Option ℚ
  registration_tax : Option ℚ
deriving DecidableEq

/-- The data object of the emissions endpoint: co2 is none when the member
is missing or null, matching data.get of the source. -/
structure EmissionsData where
  co2 : Option ℚ
deriving DecidableEq

/-- The data object of the plain vehicle endpoint used by fetch_fuel_data.
fuel_efficiency carries the decimal rendering of the JSON value, since the
source immediately applies str to it. -/
structure FuelData where
  fuel_type : Option String
  fuel_efficiency : Option String
deriving DecidableEq

/-- fetch_vehicle_data (lines 8-21): first record of the data list, wrapped
errors otherwise. -/
def fetch_vehicle_data (resp : Except String (List EvaluationRecord)) :
    Except String EvaluationRecord :=
  match resp with
  | .error e => .error ("API request failed: " ++ e)
  | .ok [] => .error "Error fetching vehicle data: list index out of range"
  | .ok (d :: _) => .ok d

/-- fetch_emissions_data (lines 25-38): the co2 member of the data object,
or none when it is missing, without raising. -/
def fetch_emissions_data (resp : Except String EmissionsData) :
    Except String (Option ℚ) :=
  match resp with
  | .error e => .error ("API request failed: " ++ e)
  | .ok d => .ok d.co2

/-- fetch_fuel_data (lines 42-65): returns the fuel type together with the
fuel efficiency rendered with a comma as decimal separator; raises when
either member is missing. -/
def fetch_fuel_data (resp : Except String FuelData) :
    Except String (String × String) :=
  match resp with
  | .error e => .error ("API request failed: " ++ e)
  | .ok d =>
    match d.fuel_type, d.fuel_efficiency with
    | some ft, some fe => .ok (ft, replaceChar fe '.' ',')
    | _, _ =>
      .error "Error fetching fuel data: Fuel type or fuel efficiency not available in API response."

/-- fetch_new_price_from_api (lines 190-215): retail_price of the first
record when present and non-null, otherwise the sum of evaluation and
registration_tax with missing members defaulting to zero. -/
def fetch_new_price_from_api (resp : Except String (List EvaluationRecord)) :
    Except String ℚ :=
  match resp with
  | .error e => .error ("API request failed: " ++ e)
  | .ok [] => .error "Error fetching new price data: list index out of range"
  | .ok (d :: _) =>
    match d.retail_price with
    | some rp => .ok rp
    | none => .ok (d.evaluation.getD 0 + d.registration_tax.getD 0)

/-- fetch_new_price_with_fallback (lines 236-252): the API value when the
fetch succeeds, otherwise the manually entered price. -/
def fetch_new_price_with_fallback (resp : Except String (List EvaluationRecord))
    (manual : ℚ) : ℚ :=
  match fetch_new_price_from_api resp with
  | .ok v => v
  | .error _ => manual

/-- update_co2_in_excel (lines 108-146): writes C26, then either the fuel
branch (C27, C25, computed C30) or the direct CO2 branch (C30), then L23 of
sheet Brugte personvogne.  The error cases model exceptions raised before
wb.save, which leave the saved file unchanged. -/
def update_co2_in_excel (cells : Cells) (co2_value : Option ℚ)
    (fuel_type fuel_efficiency : Option String) : Except String Cells :=
  let c1 := writeCell cells "Værktøj til CO2" "C26" (.str "NEDC")
  match co2_value with
  | none =>
    let c2 := writeCellOpt c1 "Værktøj til CO2" "C27" (fuel_type.map .str)
    let c3 := writeCellOpt c2 "Værktøj til CO2" "C25" (fuel_efficiency.map .str)
    match fuel_efficiency with
    | none => .error "AttributeError: NoneType object has no attribute replace"
    | some fe =>
      match pyFloat (replaceChar fe ',' '.') with
      | none => .error ("ValueError: could not convert string to float: " ++ fe)
      | some q =>
        let co2_calculation := q * (1 / 10)
        let c4 := writeCell c3 "Værktøj til CO2" "C30" (.num co2_calculation)
        let c5 := writeCellOpt c4 "Brugte personvogne" "L23" (c4 "Værktøj til CO2" "C30")
        .ok c5
  | some v =>
    let c2 := writeCell c1 "Værktøj til CO2" "C30" (.num v)
    let c3 := writeCell c2 "Brugte personvogne" "L23" (.num v)
    .ok c3

/-- update_km_data (lines 150-166): writes handelspris, norm km and current
km into E7, E8, E9 of sheet Ark1. -/
def update_km_data (cells : Cells) (handelspris norm_km current_km : ℚ) : Cells :=
  writeCell
    (writeCell (writeCell cells "Ark1" "E7" (.num handelspris)) "Ark1" "E8" (.num norm_km))
    "Ark1" "E9" (.num current_km)

/-- update_new_and_trade_price (lines 170-186): writes the new price into
L22 and the trade price into L21 of sheet Brugte Personbiler.  The trade
price is an optional cell value read earlier from the spreadsheet. -/
def update_new_and_trade_price (cells : Cells) (new_price : ℚ)
    (trade_price : Option CellVal) : Cells :=
  writeCellOpt (writeCell cells "Brugte Personbiler" "L22" (.num new_price))
    "Brugte Personbiler" "L21" trade_price

/-- print_g32_value (lines 219-233): reads G32 of sheet Brugte personbiler. -/
def print_g32_value (cells : Cells) : Option CellVal :=
  cells "Brugte personbiler" "G32"

/-- The inputs of one run of main: the four HTTP responses, the current
date, the interactively entered numbers, and the initial contents of the
two workbook files. -/
structure Env where
  vehicle_resp : Except String (List EvaluationRecord)
  emissions_resp : Except String EmissionsData
  fuel_resp : Except String FuelData
  new_price_resp : Except String (List EvaluationRecord)
  now_ordinal : ℤ
  handelspris_input : ℚ
  norm_km_input : ℚ
  current_km_input : ℚ
  manual_new_price : ℚ
  km_cells0 : Cells
  tax_cells0 : Cells

/-- The observable outcome of one run of main: the final saved contents of
the two workbook files, whether fetch_fuel_data was invoked, the new price
value passed to the final write when that point was reached, and whether the
run completed or aborted with a printed error. -/
structure RunResult where
  km_cells : Cells
  tax_cells : Cells
  fuel_fetch_called : Bool
  new_price_used : Option ℚ
  outcome : Except String Unit

/-- Lines 284-308 of main: the steps after the fuel decision.  Writes the
three entered numbers, reads the trade price for the age band, fetches the
new price with the manual fallback, updates the CO2 sheet and finally the
new and trade price cells. -/
def mainRest (env : Env) (vehicle_age : ℤ) (co2_value : Option ℚ)
    (fuel_type fuel_efficiency : Option String) (fuel_called : Bool) : RunResult :=
  let km1 := update_km_data env.km_cells0 env.handelspris_input
    env.norm_km_input env.current_km_input
  let handelspris := (find_trade_price_based_on_age km1 vehicle_age).1
  let new_price := fetch_new_price_with_fallback env.new_price_resp env.manual_new_price
  match update_co2_in_excel env.tax_cells0 co2_value fuel_type fuel_efficiency with
  | .error e => ⟨km1, env.tax_cells0, fuel_called, some new_price, .error e⟩
  | .ok tax1 =>
    ⟨km1, update_new_and_trade_price tax1 new_price handelspris,
      fuel_called, some new_price, .ok ()⟩

/-- main (lines 256-311): the whole workflow.  Any step that raises aborts
the remaining steps; workbook states already saved are kept as they are. -/
def main (env : Env) : RunResult :=
  match fetch_vehicle_data env.vehicle_resp with
  | .error e => ⟨env.km_cells0, env.tax_cells0, false, none, .error e⟩
  | .ok vehicle_data =>
    match fetch_emissions_data env.emissions_resp with
    | .error e => ⟨env.km_cells0, env.tax_cells0, false, none, .error e⟩
    | .ok co2_value =>
      let vehicle_age := calculate_vehicle_age vehicle_data.date env.now_ordinal
      match co2_value with
      | none =>
        match fetch_fuel_data env.fuel_resp with
        | .error e => ⟨env.km_cells0, env.tax_cells0, true, none, .error e⟩
        | .ok (ft, fe) => mainRest env vehicle_age none (some ft) (some fe) true
      | some v => mainRest env vehicle_age (some v) none none false

/-- C1: find_trade_price_based_on_age maps every integer age to exactly one
of the five age bands with closed-open boundaries: the label equals the band
label exactly on the stated interval, the five intervals partition the
integers, and on each interval the selected cell is the stated one of row 19
(E19 below 1, F19 on [1,2), G19 on [2,3), H19 on [3,10), I19 from 10 on). -/
theorem age_band_partition (cells : Cells) (a : ℤ) :
    ((find_trade_price_based_on_age cells a).2 = "0-1 år" ∨
      (find_trade_price_based_on_age cells a).2 = "1-2 år" ∨
      (find_trade_price_based_on_age cells a).2 = "2-3 år" ∨
      (find_trade_price_based_on_age cells a).2 = "3-9 år" ∨
      (find_trade_price_based_on_age cells a).2 = "Over 10 år") ∧
    ((find_trade_price_based_on_age cells a).2 = "0-1 år" ↔ a < 1) ∧
    ((find_trade_price_based_on_age cells a).2 = "1-2 år" ↔ 1 ≤ a ∧ a < 2) ∧
    ((find_trade_price_based_on_age cells a).2 = "2-3 år" ↔ 2 ≤ a ∧ a < 3) ∧
    ((find_trade_price_based_on_age cells a).2 = "3-9 år" ↔ 3 ≤ a ∧ a < 10) ∧
    ((find_trade_price_based_on_age cells a).2 = "Over 10 år" ↔ 10 ≤ a) ∧
    (a < 1 →
      find_trade_price_based_on_age cells a = (cells "Ark1" "E19", "0-1 år")) ∧
    (1 ≤ a ∧ a < 2 →
      find_trade_price_based_on_age cells a = (cells "Ark1" "F19", "1-2 år")) ∧
    (2 ≤ a ∧ a < 3 →
      find_trade_price_based_on_age cells a = (cells "Ark1" "G19", "2-3 år")) ∧
    (3 ≤ a ∧ a < 10 →
      find_trade_price_based_on_age cells a = (cells "Ark1" "H19", "3-9 år")) ∧
    (10 ≤ a →
      find_trade_price_based_on_age cells a = (cells "Ark1" "I19", "Over 10 år")) := by
  unfold find_trade_price_based_on_age
  split_ifs with h1 h2 h3 h4 <;>
    refine ⟨by simp, ?_, ?_, ?_, ?_, ?_, ?_, ?_, ?_, ?_, ?_⟩ <;>
    simp <;> omega

/-- Witness for C1: at age 5 the selected band is H19 with label 3-9 år. -/
theorem age_band_partition_witness :
    find_trade_price_based_on_age emptyCells 5 = (none, "3-9 år") :=
  (age_band_partition emptyCells 5).2.2.2.2.2.2.2.2.2.1 ⟨by decide, by decide⟩

/-- C3: calculate_vehicle_age is the floor of the day difference between the
current date and the registration date divided by 365, with no leap-year or
calendar-month correction. -/
theorem vehicle_age_floor_div (reg now : ℤ) :
    calculate_vehicle_age reg now = ⌊((now - reg : ℤ) : ℚ) / 365⌋ := by
  unfold calculate_vehicle_age
  rw [show ((365 : ℚ)) = ((365 : ℕ) : ℚ) by norm_num,
    Rat.floor_intCast_div_natCast, Int.fdiv_eq_ediv _ (by norm_num)]
  norm_num

/-- C8: for a fixed current date, calculate_vehicle_age is non-decreasing as
the registration date moves further into the past. -/
theorem vehicle_age_antitone (now d1 d2 : ℤ) (h : d1 ≤ d2) :
    calculate_vehicle_age d2 now ≤ calculate_vehicle_age d1 now := by
  unfold calculate_vehicle_age
  rw [Int.fdiv_eq_ediv _ (by norm_num), Int.fdiv_eq_ediv _ (by norm_num)]
  exact Int.ediv_le_ediv (by norm_num) (by omega)

/-- Witness for C8: a registration 400 days ago gives an age at most that of
one 800 days ago. -/
theorem vehicle_age_antitone_witness :
    (0 : ℤ) ≤ 400 ∧ calculate_vehicle_age 400 800 ≤ calculate_vehicle_age 0 800 :=
  ⟨by decide, vehicle_age_antitone 800 0 400 (by decide)⟩

/-- C7: a registration date strictly in the future yields a non-positive age
without any rejection, and the band lookup at that age selects cell E19 with
label 0-1 år, since its first comparison is vehicle_age < 1. -/
theorem future_registration_first_band (cells : Cells) (reg now : ℤ)
    (h : now < reg) :
    calculate_vehicle_age reg now ≤ 0 ∧
    find_trade_price_based_on_age cells (calculate_vehicle_age reg now) =
      (cells "Ark1" "E19", "0-1 år") := by
  have hage : calculate_vehicle_age reg now ≤ 0 := by
    unfold calculate_vehicle_age
    rw [Int.fdiv_eq_ediv _ (by norm_num)]
    omega
  refine ⟨hage, ?_⟩
  unfold find_trade_price_based_on_age
  rw [if_pos (by omega)]

/-- Witness for C7: now at ordinal 0, registration at ordinal 10. -/
theorem future_registration_first_band_witness :
    (0 : ℤ) < 10 ∧
    (calculate_vehicle_age 10 0 ≤ 0 ∧
      find_trade_price_based_on_age emptyCells (calculate_vehicle_age 10 0) =
        (none, "0-1 år")) :=
  ⟨by decide, future_registration_first_band emptyCells 10 0 (by decide)⟩

/-- C2: fetch_new_price_from_api returns retail_price whenever that member
is present and non-null, including the value 0, and otherwise returns the
sum of evaluation and registration_tax with missing members defaulting to
zero. -/
theorem new_price_retail_or_sum (d : EvaluationRecord)
    (rest : List EvaluationRecord) :
    (∀ rp, d.retail_price = some rp →
      fetch_new_price_from_api (.ok (d :: rest)) = .ok rp) ∧
    (d.retail_price = none →
      fetch_new_price_from_api (.ok (d :: rest)) =
        .ok (d.evaluation.getD 0 + d.registration_tax.getD 0)) := by
  constructor
  · intro rp hrp
    simp [fetch_new_price_from_api, hrp]
  · intro hnone
    simp [fetch_new_price_from_api, hnone]

/-- Witness for C2: a null retail price with evaluation 100000 and
registration tax 50000 yields 150000, and a zero retail price is used
as is. -/
theorem new_price_retail_or_sum_witness :
    fetch_new_price_from_api
        (.ok [⟨0, none, some 100000, some 50000⟩]) = .ok 150000 ∧
    fetch_new_price_from_api (.ok [⟨0, some 0, none, none⟩]) = .ok 0 := by
  constructor
  · have h := (new_price_retail_or_sum ⟨0, none, some 100000, some 50000⟩ []).2 rfl
    rw [h]
    norm_num
  · exact (new_price_retail_or_sum ⟨0, some 0, none, none⟩ []).1 0 rfl

/-- C9: for a well-formed emissions response, fetch_emissions_data returns
none when the co2 member is absent or null, without raising, and returns the
value when it is present. -/
theorem emissions_absent_returns_none (d : EmissionsData) :
    (d.co2 = none → fetch_emissions_data (.ok d) = .ok none) ∧
    (∀ v, d.co2 = some v → fetch_emissions_data (.ok d) = .ok (some v)) := by
  constructor
  · intro h
    simp [fetch_emissions_data, h]
  · intro v h
    simp [fetch_emissions_data, h]

/-- Witness for C9: an absent co2 member yields none, a present value 120 is
returned. -/
theorem emissions_absent_returns_none_witness :
    fetch_emissions_data (.ok ⟨none⟩) = .ok none ∧
    fetch_emissions_data (.ok ⟨some 120⟩) = .ok (some 120) :=
  ⟨(emissions_absent_returns_none ⟨none⟩).1 rfl,
    (emissions_absent_returns_none ⟨some 120⟩).2 120 rfl⟩

/-- C4: when the emissions value is absent, update_co2_in_excel writes into
C30 the fuel efficiency, parsed back from its comma-decimal string, times
one tenth, and stores the fuel efficiency string itself in C25; and
fetch_fuel_data produces that string by replacing the dot with a comma, so
it contains no dot. -/
theorem co2_written_from_fuel_efficiency :
    (∀ (cells : Cells) (ft : Option String) (fe : String) (q : ℚ),
      pyFloat (replaceChar fe ',' '.') = some q →
      ∃ c', update_co2_in_excel cells none ft (some fe) = .ok c' ∧
        c' "Værktøj til CO2" "C30" = some (.num (q * (1 / 10))) ∧
        c' "Værktøj til CO2" "C25" = some (.str fe)) ∧
    (∀ (d : FuelData) (ft fe : String),
      d.fuel_type = some ft → d.fuel_efficiency = some fe →
      fetch_fuel_data (.ok d) = .ok (ft, replaceChar fe '.' ',') ∧
      '.' ∉ (replaceChar fe '.' ',').data) := by
  constructor
  · intro cells ft fe q hq
    simp only [update_co2_in_excel, hq]
    refine ⟨_, rfl, ?_, ?_⟩ <;> simp +decide [writeCell, writeCellOpt]
  · intro d ft fe hft hfe
    refine ⟨by simp [fetch_fuel_data, hft, hfe], ?_⟩
    simp only [replaceChar, List.mem_map]
    rintro ⟨c, _, hc⟩
    by_cases h : c = '.' <;> simp_all

/-- Witness for C4: fuel efficiency string 5,5 gives C30 equal to 11/2 times
one tenth with C25 keeping the comma string, and fetch_fuel_data renders 5.5
as 5,5. -/
theorem co2_written_from_fuel_efficiency_witness :
    (∃ c', update_co2_in_excel emptyCells none (some "Benzin") (some "5,5") = .ok c' ∧
      c' "Værktøj til CO2" "C30" = some (.num ((11 / 2) * (1 / 10))) ∧
      c' "Værktøj til CO2" "C25" = some (.str "5,5")) ∧
    (fetch_fuel_data (.ok ⟨some "Benzin", some "5.5"⟩) = .ok ("Benzin", "5,5") ∧
      '.' ∉ ("5,5" : String).data) := by
  constructor
  · exact co2_written_from_fuel_efficiency.1 emptyCells (some "Benzin") "5,5" (11 / 2)
      (by simp +decide [pyFloat, splitOnChar, decodeDigits, digitVal, replaceChar]; norm_num)
  · have h := co2_written_from_fuel_efficiency.2 ⟨some "Benzin", some "5.5"⟩
      "Benzin" "5.5" rfl rfl
    rwa [show replaceChar "5.5" '.' ',' = "5,5" by decide] at h

/-- C10: every completed call of update_co2_in_excel leaves C26 of the CO2
tool sheet equal to the text NEDC, in both branches; and when a CO2 value is
available, C25 and C27 are left unchanged while C30 and L23 of sheet Brugte
personvogne both receive that value. -/
theorem update_co2_frame (cells : Cells) (co2 : Option ℚ)
    (ft fe : Option String) :
    (∀ c', update_co2_in_excel cells co2 ft fe = .ok c' →
      c' "Værktøj til CO2" "C26" = some (.str "NEDC")) ∧
    (∀ v, co2 = some v →
      ∃ c', update_co2_in_excel cells co2 ft fe = .ok c' ∧
        c' "Værktøj til CO2" "C25" = cells "Værktøj til CO2" "C25" ∧
        c' "Værktøj til CO2" "C27" = cells "Værktøj til CO2" "C27" ∧
        c' "Værktøj til CO2" "C30" = some (.num v) ∧
        c' "Brugte personvogne" "L23" = some (.num v)) := by
  constructor
  · intro c' hc'
    match co2 with
    | some v =>
      simp only [update_co2_in_excel, Except.ok.injEq] at hc'
      subst hc'
      simp +decide [writeCell, writeCellOpt]
    | none =>
      match fe with
      | none => simp [update_co2_in_excel] at hc'
      | some s =>
        rcases hp : pyFloat (replaceChar s ',' '.') with _ | q
        · simp [update_co2_in_excel, hp] at hc'
        · simp only [update_co2_in_excel, hp, Except.ok.injEq] at hc'
          subst hc'
          simp +decide [writeCell, writeCellOpt]
  · intro v hv
    subst hv
    refine ⟨_, rfl, ?_, ?_, ?_, ?_⟩ <;>
      simp +decide [update_co2_in_excel, writeCell, writeCellOpt]

/-- Witness for C10: with CO2 value 120 on an empty workbook, C26 becomes
NEDC, C25 and C27 stay empty, and C30 and L23 both hold 120. -/
theorem update_co2_frame_witness :
    ∃ c', update_co2_in_excel emptyCells (some 120) none none = .ok c' ∧
      c' "Værktøj til CO2" "C26" = some (.str "NEDC") ∧
      c' "Værktøj til CO2" "C25" = none ∧
      c' "Værktøj til CO2" "C27" = none ∧
      c' "Værktøj til CO2" "C30" = some (.num 120) ∧
      c' "Brugte personvogne" "L23" = some (.num 120) := by
  obtain ⟨c', hok, h25, h27, h30, h23⟩ :=
    (update_co2_frame emptyCells (some 120) none none).2 120 rfl
  exact ⟨c', hok, (update_co2_frame emptyCells (some 120) none none).1 c' hok,
    h25, h27, h30, h23⟩

/-- C5: in every run of main in which the fetched emissions value is
present, fetch_fuel_data is never invoked, the run completes, and the
emissions value is written directly into C30 of the CO2 tool sheet and into
L23 of sheet Brugte personvogne. -/
theorem emissions_present_skips_fuel_fetch (env : Env) (vd : EvaluationRecord)
    (rest : List EvaluationRecord) (v : ℚ)
    (hv : env.vehicle_resp = .ok (vd :: rest))
    (he : env.emissions_resp = .ok ⟨some v⟩) :
    (main env).fuel_fetch_called = false ∧
    (main env).outcome = .ok () ∧
    (main env).tax_cells "Værktøj til CO2" "C30" = some (.num v) ∧
    (main env).tax_cells "Brugte personvogne" "L23" = some (.num v) := by
  refine ⟨?_, ?_, ?_, ?_⟩ <;>
    simp +decide [main, mainRest, hv, he, fetch_vehicle_data,
      fetch_emissions_data, update_co2_in_excel, update_new_and_trade_price,
      writeCell, writeCellOpt]

/-- Witness for C5: a run with CO2 value 120 present completes without the
fuel fetch and stores 120 in C30 and L23. -/
theorem emissions_present_skips_fuel_fetch_witness :
    (main ⟨.ok [⟨0, none, none, none⟩], .ok ⟨some 120⟩, .error "x", .error "y",
        1000, 1, 2, 3, 4, emptyCells, emptyCells⟩).fuel_fetch_called = false ∧
    (main ⟨.ok [⟨0, none, none, none⟩], .ok ⟨some 120⟩, .error "x", .error "y",
        1000, 1, 2, 3, 4, emptyCells, emptyCells⟩).outcome = .ok () ∧
    (main ⟨.ok [⟨0, none, none, none⟩], .ok ⟨some 120⟩, .error "x", .error "y",
        1000, 1, 2, 3, 4, emptyCells, emptyCells⟩).tax_cells
      "Værktøj til CO2" "C30" = some (.num 120) ∧
    (main ⟨.ok [⟨0, none, none, none⟩], .ok ⟨some 120⟩, .error "x", .error "y",
        1000, 1, 2, 3, 4, emptyCells, emptyCells⟩).tax_cells
      "Brugte personvogne" "L23" = some (.num 120) :=
  emissions_present_skips_fuel_fetch _ ⟨0, none, none, none⟩ [] 120 rfl rfl

/-- C6: the new-price fallback and the abort discipline.  First, when the
new-price fetch fails, fetch_new_price_with_fallback returns the manually
entered price.  Second, in every completed run whose new-price fetch failed,
the manually entered price is the value used for the downstream write of
L22.  Third, a failure of the very first step aborts the run with that error
and leaves both workbooks untouched.  Fourth, a failure at the CO2 update
step aborts the remaining steps with that error while the cells already
written by update_km_data stay written, with no rollback, and the CO2
workbook keeps its prior saved state. -/
theorem new_price_fallback_and_abort :
    (∀ (resp : Except String (List EvaluationRecord)) (manual : ℚ) (e : String),
      fetch_new_price_from_api resp = .error e →
      fetch_new_price_with_fallback resp manual = manual) ∧
    (∀ (env : Env) (e : String),
      fetch_new_price_from_api env.new_price_resp = .error e →
      (main env).outcome = .ok () →
      (main env).new_price_used = some env.manual_new_price ∧
      (main env).tax_cells "Brugte Personbiler" "L22" =
        some (.num env.manual_new_price)) ∧
    (∀ (env : Env) (e : String),
      env.vehicle_resp = .error e →
      (main env).outcome = .error ("API request failed: " ++ e) ∧
      (main env).km_cells = env.km_cells0 ∧
      (main env).tax_cells = env.tax_cells0 ∧
      (main env).new_price_used = none) ∧
    (∀ (env : Env) (vd : EvaluationRecord) (rest : List EvaluationRecord)
      (ft fe e : String),
      env.vehicle_resp = .ok (vd :: rest) →
      env.emissions_resp = .ok ⟨none⟩ →
      fetch_fuel_data env.fuel_resp = .ok (ft, fe) →
      update_co2_in_excel env.tax_cells0 none (some ft) (some fe) = .error e →
      (main env).outcome = .error e ∧
      (main env).km_cells "Ark1" "E7" = some (.num env.handelspris_input) ∧
      (main env).km_cells "Ark1" "E8" = some (.num env.norm_km_input) ∧
      (main env).km_cells "Ark1" "E9" = some (.num env.current_km_input) ∧
      (main env).tax_cells = env.tax_cells0) := by
  refine ⟨?_, ?_, ?_, ?_⟩
  · intro resp manual e hfe
    simp [fetch_new_price_with_fallback, hfe]
  · intro env e hfe hok
    rcases hv : fetch_vehicle_data env.vehicle_resp with e1 | vd
    · simp [main, hv] at hok
    · rcases hem : fetch_emissions_data env.emissions_resp with e2 | co2
      · simp [main, hv, hem] at hok
      · rcases co2 with _ | v
        · rcases hfu : fetch_fuel_data env.fuel_resp with e3 | ⟨ft, fe⟩
          · simp [main, hv, hem, hfu] at hok
          · rcases hup : update_co2_in_excel env.tax_cells0 none (some ft)
              (some fe) with e4 | tax1
            · simp [main, mainRest, hv, hem, hfu, hup] at hok
            · refine ⟨?_, ?_⟩ <;>
                simp +decide [main, mainRest, hv, hem, hfu, hup,
                  fetch_new_price_with_fallback, hfe,
                  update_new_and_trade_price, writeCell, writeCellOpt]
        · refine ⟨?_, ?_⟩ <;>
            simp +decide [main, mainRest, hv, hem,
              update_co2_in_excel, fetch_new_price_with_fallback, hfe,
              update_new_and_trade_price, writeCell, writeCellOpt]
  · intro env e hv
    refine ⟨?_, ?_, ?_, ?_⟩ <;> simp [main, fetch_vehicle_data, hv]
  · intro env vd rest ft fe e hv hem hfu hup
    refine ⟨?_, ?_, ?_, ?_, ?_⟩ <;>
      simp +decide [main, mainRest, hv, hem, hfu, hup, fetch_vehicle_data,
        fetch_emissions_data, update_km_data, writeCell, writeCellOpt]

/-- Witness for C6: a failed new-price fetch falls back to the manual price
42 which reaches L22; a failed vehicle fetch aborts with both workbooks
untouched; an unparsable fuel efficiency aborts the CO2 update while E7, E8
and E9 keep the values already written. -/
theorem new_price_fallback_and_abort_witness :
    fetch_new_price_with_fallback (.error "down") 42 = 42 ∧
    ((main ⟨.ok [⟨0, some 7, none, none⟩], .ok ⟨some 120⟩, .error "x",
        .error "down", 1000, 1, 2, 3, 42, emptyCells, emptyCells⟩).new_price_used =
      some 42 ∧
      (main ⟨.ok [⟨0, some 7, none, none⟩], .ok ⟨some 120⟩, .error "x",
        .error "down", 1000, 1, 2, 3, 42, emptyCells, emptyCells⟩).tax_cells
        "Brugte Personbiler" "L22" = some (.num 42)) ∧
    ((main ⟨.error "down", .ok ⟨none⟩, .error "x", .error "y", 0, 1, 2, 3, 4,
        emptyCells, emptyCells⟩).outcome = .error ("API request failed: " ++ "down") ∧
      (main ⟨.error "down", .ok ⟨none⟩, .error "x", .error "y", 0, 1, 2, 3, 4,
        emptyCells, emptyCells⟩).km_cells = emptyCells) ∧
    ((main ⟨.ok [⟨0, none, none, none⟩], .ok ⟨none⟩, .ok ⟨some "Benzin", some "abc"⟩,
        .error "y", 0, 1, 2, 3, 4, emptyCells, emptyCells⟩).outcome =
      .error ("ValueError: could not convert string to float: " ++ "abc") ∧
      (main ⟨.ok [⟨0, none, none, none⟩], .ok ⟨none⟩, .ok ⟨some "Benzin", some "abc"⟩,
        .error "y", 0, 1, 2, 3, 4, emptyCells, emptyCells⟩).km_cells
        "Ark1" "E7" = some (.num 1) ∧
      (main ⟨.ok [⟨0, none, none, none⟩], .ok ⟨none⟩, .ok ⟨some "Benzin", some "abc"⟩,
        .error "y", 0, 1, 2, 3, 4, emptyCells, emptyCells⟩).tax_cells = emptyCells) := by
  refine ⟨?_, ?_, ?_, ?_⟩
  · exact new_price_fallback_and_abort.1 (.error "down") 42
      ("API request failed: " ++ "down") rfl
  · exact (new_price_fallback_and_abort.2.1
      ⟨.ok [⟨0, some 7, none, none⟩], .ok ⟨some 120⟩, .error "x", .error "down",
        1000, 1, 2, 3, 42, emptyCells, emptyCells⟩
      ("API request failed: " ++ "down") rfl rfl)
  · have h := new_price_fallback_and_abort.2.2.1
      ⟨.error "down", .ok ⟨none⟩, .error "x", .error "y", 0, 1, 2, 3, 4,
        emptyCells, emptyCells⟩ "down" rfl
    exact ⟨h.1, h.2.1⟩
  · have h := new_price_fallback_and_abort.2.2.2
      ⟨.ok [⟨0, none, none, none⟩], .ok ⟨none⟩, .ok ⟨some "Benzin", some "abc"⟩,
        .error "y", 0, 1, 2, 3, 4, emptyCells, emptyCells⟩
      ⟨0, none, none, none⟩ [] "Benzin" "abc"
      ("ValueError: could not convert string to float: " ++ "abc") rfl rfl rfl rfl
    exact ⟨h.1, h.2.1, h.2.2.2.2⟩

end ExportTaxCalc
